import Mathlib

/-!
Verification of the polling wait primitive `wait_until_time` from
`src/trench_mcp/server.py`.

The embedding models:
- Python's `datetime.fromisoformat` (the subset grammar used by the tool:
  `YYYY-MM-DD[<sep>HH:MM[:SS]][±HH:MM]`) as a character-list parser;
- the UTC normalization performed at the two call sites (lines 169-179 for
  the target, lines 196-208 for the observed current time): a trailing `Z`
  is first rewritten to `+00:00`, then `fromisoformat` is applied, then a
  naive result is given a UTC offset (`replace(tzinfo=utc)`) while an aware
  result is converted to UTC (`astimezone(utc)`).  A normalized value is
  represented by its absolute instant in seconds on the proleptic Gregorian
  calendar;
- the poll loop (lines 184-219): elapsed wall-clock time is checked at the
  top of each iteration, the Time Source is queried, missing / malformed
  fields terminate the call, a current time `>= target` returns success,
  otherwise the loop sleeps 0.1 s and repeats, up to an 86 400 s timeout.
  Time Source queries are modelled as instantaneous; the clock advances
  only at the `time.sleep(0.1)` call, so elapsed time before iteration `k`
  is `k` sleep intervals.  The returned trace records the outcome, the
  number of Time Source queries made and the number of sleeps incurred.
-/

namespace TrenchMCP

/-- Fields of a Python `datetime` as produced by `fromisoformat`:
calendar fields plus an optional fixed offset in minutes east of UTC
(`tzinfo = none` is a naive datetime). -/
structure PyDateTime where
  year : Nat
  month : Nat
  day : Nat
  hour : Nat
  minute : Nat
  second : Nat
  tzinfo : Option Int
deriving DecidableEq, Repr

/-- Numeric value of an ASCII digit character. -/
def digitVal (c : Char) : Nat := c.toNat - 48

/-- Parse exactly two ASCII digits. -/
def parseNat2 : List Char → Option (Nat × List Char)
  | c1 :: c2 :: rest =>
    if c1.isDigit && c2.isDigit then some (10 * digitVal c1 + digitVal c2, rest) else none
  | _ => none

/-- Parse exactly four ASCII digits. -/
def parseNat4 : List Char → Option (Nat × List Char)
  | c1 :: c2 :: c3 :: c4 :: rest =>
    if c1.isDigit && c2.isDigit && c3.isDigit && c4.isDigit then
      some (1000 * digitVal c1 + 100 * digitVal c2 + 10 * digitVal c3 + digitVal c4, rest)
    else none
  | _ => none

/-- Consume one expected character. -/
def expect (a : Char) : List Char → Option (List Char)
  | c :: rest => if c = a then some rest else none
  | [] => none

/-- Gregorian leap-year rule (as in Python's `calendar`/`datetime`). -/
def isLeapYear (y : Nat) : Bool := (y % 4 == 0 && y % 100 != 0) || y % 400 == 0

/-- Number of days in a month, as validated by the `datetime` constructor. -/
def daysInMonth (y m : Nat) : Nat :=
  if m = 2 then (if isLeapYear y then 29 else 28)
  else if m = 4 ∨ m = 6 ∨ m = 9 ∨ m = 11 then 30 else 31

/-- Parse `HH:MM[:SS]` (the time part accepted by `fromisoformat`;
fractional seconds are not used by this system and are not modelled). -/
def parseTimePart (cs : List Char) : Option (Nat × Nat × Nat × List Char) :=
  match parseNat2 cs with
  | none => none
  | some (h, cs) =>
    match expect ':' cs with
    | none => none
    | some cs =>
      match parseNat2 cs with
      | none => none
      | some (mi, cs) =>
        match cs with
        | ':' :: cs' =>
          match parseNat2 cs' with
          | none => none
          | some (s, cs'') => some (h, mi, s, cs'')
        | _ => some (h, mi, 0, cs)

/-- Parse an optional trailing UTC offset `±HH:MM`.  Python's `timezone`
constructor requires the absolute offset to be strictly less than 24 h. -/
def parseTzPart (cs : List Char) : Option (Option Int × List Char) :=
  match cs with
  | '+' :: rest =>
    (match parseNat2 rest with
     | none => none
     | some (h, cs) =>
       match expect ':' cs with
       | none => none
       | some cs =>
         match parseNat2 cs with
         | none => none
         | some (mi, cs) =>
           if h * 60 + mi < 1440 then some (some ((h : Int) * 60 + mi), cs) else none)
  | '-' :: rest =>
    (match parseNat2 rest with
     | none => none
     | some (h, cs) =>
       match expect ':' cs with
       | none => none
       | some cs =>
         match parseNat2 cs with
         | none => none
         | some (mi, cs) =>
           if h * 60 + mi < 1440 then some (some (-((h : Int) * 60 + mi)), cs) else none)
  | cs => some (none, cs)

/-- Model of Python's `datetime.fromisoformat` on a character list:
`YYYY-MM-DD`, optionally followed by a single separator character and
`HH:MM[:SS]`, optionally followed by `±HH:MM`.  Component range checks are
the ones enforced by the `date`/`datetime` constructors; any violation is
a `ValueError`, modelled as `none`. -/
def fromisoformatL (cs : List Char) : Option PyDateTime :=
  match parseNat4 cs with
  | none => none
  | some (y, cs) =>
    match expect '-' cs with
    | none => none
    | some cs =>
      match parseNat2 cs with
      | none => none
      | some (m, cs) =>
        match expect '-' cs with
        | none => none
        | some cs =>
          match parseNat2 cs with
          | none => none
          | some (d, cs) =>
            if 1 ≤ y ∧ y ≤ 9999 ∧ 1 ≤ m ∧ m ≤ 12 ∧ 1 ≤ d ∧ d ≤ daysInMonth y m then
              match cs with
              | [] => some ⟨y, m, d, 0, 0, 0, none⟩
              | _sep :: cs =>
                match parseTimePart cs with
                | none => none
                | some (h, mi, s, cs) =>
                  if h ≤ 23 ∧ mi ≤ 59 ∧ s ≤ 59 then
                    match parseTzPart cs with
                    | none => none
                    | some (tz, cs) =>
                      match cs with
                      | [] => some ⟨y, m, d, h, mi, s, tz⟩
                      | _ => none
                  else none
            else none

/-- `fromisoformat` on a string. -/
def fromisoformat (s : String) : Option PyDateTime := fromisoformatL s.toList

/-- Days since 0000-03-01 of a Gregorian civil date (Hinnant's
`days_from_civil`, specialised to years ≥ 1). -/
def daysFromCivil (y m d : Nat) : Nat :=
  let yy := if m ≤ 2 then y - 1 else y
  let era := yy / 400
  let yoe := yy % 400
  let mp := (m + 9) % 12
  let doy := (153 * mp + 2) / 5 + d - 1
  let doe := yoe * 365 + yoe / 4 - yoe / 100 + doy
  era * 146097 + doe

/-- Wall-clock fields of a datetime as an instant in seconds (ignoring its
offset): the instant its fields denote if they were read as UTC. -/
def civilSecs (f : PyDateTime) : Int :=
  (daysFromCivil f.year f.month f.day : Int) * 86400
    + f.hour * 3600 + f.minute * 60 + f.second

/-- UTC normalization of a parsed datetime, as the code performs it:
a naive datetime gets `replace(tzinfo=utc)` (fields kept, read as UTC),
an aware one gets `astimezone(utc)` (absolute instant preserved).  Either
way the result is determined by its absolute instant in seconds. -/
def pyNormalize (f : PyDateTime) : Int :=
  match f.tzinfo with
  | none => civilSecs f
  | some off => civilSecs f - 60 * off

/-- Target-time normalization (server.py lines 169-179): rewrite a trailing
`Z` to `+00:00`, parse, normalize to UTC. -/
def normTargetL (cs : List Char) : Option Int :=
  let fixed := if cs.getLast? = some 'Z' then cs.dropLast ++ "+00:00".toList else cs
  (fromisoformatL fixed).map pyNormalize

/-- Current-time normalization (server.py lines 196-208): same fix of a
trailing `Z`, same parse, same UTC normalization. -/
def normCurrentL (cs : List Char) : Option Int :=
  let fixed := if cs.getLast? = some 'Z' then cs.dropLast ++ "+00:00".toList else cs
  (fromisoformatL fixed).map pyNormalize

/-- Normalized UTC instant of the `target_time_iso` argument. -/
def parse_target_time (s : String) : Option Int := normTargetL s.toList

/-- Normalized UTC instant of an observed `current_time_iso` value. -/
def parse_current_time (s : String) : Option Int := normCurrentL s.toList

/-- One response of the Time Source (`make_api_request("GET", "/time")`):
either the returned dict contains an `"error"` key (`failure`), or it is a
success payload whose `current_time_iso` field may be absent
(`result.get` returning `None`) or any string. -/
inductive ApiResult where
  | failure (msg : String)
  | success (current_time_iso : Option String)
deriving DecidableEq, Repr

/-- The distinct return statements of `wait_until_time`, as a tagged
outcome: target parse failure (line 182), Time Source failure (line 190),
missing `current_time_iso` (line 194), target reached carrying the
normalized observed instant (line 212), current-time parse failure
carrying the offending text (line 215), and timeout (line 219). -/
inductive WaitOutcome where
  | targetParseError (text : String)
  | sourceError (msg : String)
  | missingCurrentTime
  | reached (current : Int)
  | currentParseError (text : String)
  | timedOut (target : Int)
deriving DecidableEq, Repr

/-- Result of a run of the waiter: its outcome, how many Time Source
queries it made, and how many `time.sleep` calls it incurred. -/
structure WaitTrace where
  outcome : WaitOutcome
  queries : Nat
  sleeps : Nat
deriving DecidableEq, Repr

/-- `time.sleep(0.1)`: the poll interval, in milliseconds. -/
def poll_interval_ms : Nat := 100

/-- `max_wait_seconds = 86400`: the timeout, in milliseconds. -/
def max_wait_ms : Nat := 86400 * 1000

/-- The poll loop of `wait_until_time` (lines 187-217).  Queries are
instantaneous and only sleeps advance the clock, so at iteration `k` the
elapsed wall-clock time is `k * poll_interval_ms`; the loop guard
`time.time() - start_time < max_wait_seconds` is checked at the top of
the iteration, before the Time Source is queried.  `fuel` only forces
termination; it is chosen large enough at the top level that the
`fuel = 0` branch coincides with the guard-triggered timeout. -/
def waitLoop (target : Int) (src : Nat → ApiResult) : Nat → Nat → WaitTrace
  | 0, _ => ⟨.timedOut target, 0, 0⟩
  | fuel + 1, k =>
    if max_wait_ms ≤ k * poll_interval_ms then ⟨.timedOut target, 0, 0⟩
    else
      match src k with
      | .failure e => ⟨.sourceError e, 1, 0⟩
      | .success cti =>
        match cti with
        | none => ⟨.missingCurrentTime, 1, 0⟩
        | some s =>
          if s = "" then ⟨.missingCurrentTime, 1, 0⟩
          else
            match parse_current_time s with
            | none => ⟨.currentParseError s, 1, 0⟩
            | some cur =>
              if target ≤ cur then ⟨.reached cur, 1, 0⟩
              else
                let r := waitLoop target src fuel (k + 1)
                ⟨r.outcome, r.queries + 1, r.sleeps + 1⟩

/-- Fuel for the top-level call: one more than the number of iterations
whose start can pass the guard (`86400000 / 100 = 864000`). -/
def wait_fuel : Nat := 864001

/-- `wait_until_time(target_time_iso)` against a given Time Source:
parse-and-normalize the target (returning the parse-error outcome without
any query on failure), then run the poll loop. -/
def wait_until_time (target_time_iso : String) (src : Nat → ApiResult) : WaitTrace :=
  match parse_target_time target_time_iso with
  | none => ⟨.targetParseError target_time_iso, 0, 0⟩
  | some t => waitLoop t src wait_fuel 0

/-- ASCII digit character for a digit value. -/
def toDigitChar (d : Nat) : Char := Char.ofNat (48 + d)

/-- Two-digit zero-padded decimal rendering (`%02d`). -/
def pad2 (n : Nat) : List Char := [toDigitChar (n / 10), toDigitChar (n % 10)]

/-- Four-digit zero-padded decimal rendering (`%04d`). -/
def pad4 (n : Nat) : List Char :=
  [toDigitChar (n / 1000), toDigitChar (n / 100 % 10), toDigitChar (n / 10 % 10),
   toDigitChar (n % 10)]

/-- Python's `datetime.isoformat()` for a UTC-aware datetime with zero
microseconds: `YYYY-MM-DDTHH:MM:SS+00:00`. -/
def isoformatUTC (f : PyDateTime) : List Char :=
  pad4 f.year ++ '-' :: (pad2 f.month ++ '-' :: (pad2 f.day ++ 'T' :: (pad2 f.hour
    ++ ':' :: (pad2 f.minute ++ ':' :: (pad2 f.second ++ "+00:00".toList)))))

/-- Field ranges of a well-formed UTC-aware datetime (the invariant the
`datetime` constructor maintains, with a zero UTC offset). -/
def validUTCFields (f : PyDateTime) : Prop :=
  1 ≤ f.year ∧ f.year ≤ 9999 ∧ 1 ≤ f.month ∧ f.month ≤ 12 ∧ 1 ≤ f.day ∧
  f.day ≤ daysInMonth f.year f.month ∧ f.hour ≤ 23 ∧ f.minute ≤ 59 ∧ f.second ≤ 59 ∧
  f.tzinfo = some 0

/-- Add `n` queries and `n` sleeps to a trace (bookkeeping for peeled
loop iterations). -/
def bump (r : WaitTrace) (n : Nat) : WaitTrace := ⟨r.outcome, r.queries + n, r.sleeps + n⟩

theorem bump_zero (r : WaitTrace) : bump r 0 = r := rfl

theorem bump_bump (r : WaitTrace) (n m : Nat) : bump (bump r n) m = bump r (n + m) := by
  simp [bump, Nat.add_assoc]

theorem parse_current_time_empty : parse_current_time "" = none := rfl

theorem wait_unfold (tgt : String) (t : Int) (src : Nat → ApiResult)
    (ht : parse_target_time tgt = some t) :
    wait_until_time tgt src = waitLoop t src wait_fuel 0 := by
  simp [wait_until_time, ht]

theorem waitLoop_guard (t : Int) (src : Nat → ApiResult) (fuel k : Nat)
    (hk : max_wait_ms ≤ k * poll_interval_ms) :
    waitLoop t src (fuel + 1) k = ⟨.timedOut t, 0, 0⟩ := by
  simp [waitLoop, hk]

theorem waitLoop_failure (t : Int) (src : Nat → ApiResult) (fuel k : Nat) (e : String)
    (hk : ¬ max_wait_ms ≤ k * poll_interval_ms) (hf : src k = .failure e) :
    waitLoop t src (fuel + 1) k = ⟨.sourceError e, 1, 0⟩ := by
  simp [waitLoop, hk, hf]

theorem waitLoop_missing_none (t : Int) (src : Nat → ApiResult) (fuel k : Nat)
    (hk : ¬ max_wait_ms ≤ k * poll_interval_ms) (hf : src k = .success none) :
    waitLoop t src (fuel + 1) k = ⟨.missingCurrentTime, 1, 0⟩ := by
  simp [waitLoop, hk, hf]

theorem waitLoop_missing_empty (t : Int) (src : Nat → ApiResult) (fuel k : Nat)
    (hk : ¬ max_wait_ms ≤ k * poll_interval_ms) (hf : src k = .success (some "")) :
    waitLoop t src (fuel + 1) k = ⟨.missingCurrentTime, 1, 0⟩ := by
  simp [waitLoop, hk, hf]

theorem waitLoop_parse_fail (t : Int) (src : Nat → ApiResult) (fuel k : Nat) (s : String)
    (hk : ¬ max_wait_ms ≤ k * poll_interval_ms) (hf : src k = .success (some s))
    (hemp : s ≠ "") (hp : parse_current_time s = none) :
    waitLoop t src (fuel + 1) k = ⟨.currentParseError s, 1, 0⟩ := by
  simp [waitLoop, hk, hf, hemp, hp]

theorem waitLoop_reached (t : Int) (src : Nat → ApiResult) (fuel k : Nat) (s : String) (c : Int)
    (hk : ¬ max_wait_ms ≤ k * poll_interval_ms) (hf : src k = .success (some s))
    (hp : parse_current_time s = some c) (hge : t ≤ c) :
    waitLoop t src (fuel + 1) k = ⟨.reached c, 1, 0⟩ := by
  have hemp : s ≠ "" := by
    intro h
    rw [h, parse_current_time_empty] at hp
    exact Option.noConfusion hp
  simp [waitLoop, hk, hf, hemp, hp, hge]

theorem waitLoop_continue (t : Int) (src : Nat → ApiResult) (fuel k : Nat) (s : String) (c : Int)
    (hk : ¬ max_wait_ms ≤ k * poll_interval_ms) (hf : src k = .success (some s))
    (hp : parse_current_time s = some c) (hlt : c < t) :
    waitLoop t src (fuel + 1) k = bump (waitLoop t src fuel (k + 1)) 1 := by
  have hemp : s ≠ "" := by
    intro h
    rw [h, parse_current_time_empty] at hp
    exact Option.noConfusion hp
  simp [waitLoop, hk, hf, hemp, hp, not_le.mpr hlt, bump]

/-- Peel `n` consecutive not-yet-reached iterations off the loop: if every
iteration index `j` in `[k, k+n)` passes the guard and observes a parseable
current time strictly below the target, the loop at `k` with `fuel + n`
fuel behaves as the loop at `k + n` with `fuel` fuel, plus `n` queries and
`n` sleeps. -/
theorem waitLoop_skip (t : Int) (src : Nat → ApiResult) (s : Nat → String) (c : Nat → Int)
    (n : Nat) : ∀ fuel k,
    (∀ j, k ≤ j → j < k + n →
       j * poll_interval_ms < max_wait_ms ∧ src j = .success (some (s j)) ∧
       parse_current_time (s j) = some (c j) ∧ c j < t) →
    waitLoop t src (fuel + n) k = bump (waitLoop t src fuel (k + n)) n := by
  induction n with
  | zero => intro fuel k _; simp [bump_zero]
  | succ n ih =>
    intro fuel k hgood
    obtain ⟨hkb, hsk, hpk, hck⟩ := hgood k (Nat.le_refl k) (by omega)
    have h1 : fuel + (n + 1) = (fuel + n) + 1 := by omega
    rw [h1, waitLoop_continue t src (fuel + n) k (s k) (c k) (not_le.mpr hkb) hsk hpk hck]
    have h2 := ih fuel (k + 1) (fun j hj1 hj2 => hgood j (by omega) (by omega))
    rw [h2, bump_bump]
    have h3 : k + 1 + n = k + (n + 1) := by omega
    rw [h3, Nat.add_comm n 1]

theorem budget_iff (k : Nat) : k * poll_interval_ms < max_wait_ms ↔ k < 864000 := by
  simp only [poll_interval_ms, max_wait_ms]
  omega

/-- C1: for every parseable target, if the Time Source's first response
carries a current-time value whose normalized UTC instant is `≥` the
normalized target instant, `wait_until_time` returns the `reached` outcome
after exactly one Time Source query, with no sleep incurred and no further
polling. -/
theorem C1_first_response_reached (tgt : String) (t : Int) (src : Nat → ApiResult)
    (s : String) (c : Int)
    (ht : parse_target_time tgt = some t)
    (hs : src 0 = ApiResult.success (some s))
    (hc : parse_current_time s = some c)
    (hge : t ≤ c) :
    wait_until_time tgt src = ⟨.reached c, 1, 0⟩ := by
  rw [wait_unfold tgt t src ht]
  have h0 : ¬ max_wait_ms ≤ 0 * poll_interval_ms := by
    simp [max_wait_ms, poll_interval_ms]
  have hfuel : wait_fuel = 864000 + 1 := rfl
  rw [hfuel, waitLoop_reached t src 864000 0 s c h0 hs hc hge]

/-- Witness for C1 at a concrete input. -/
theorem C1_witness :
    wait_until_time "2025-09-15T17:30:00Z"
      (fun _ => ApiResult.success (some "2025-09-15T17:30:05+00:00"))
      = ⟨.reached 63919992605, 1, 0⟩ :=
  C1_first_response_reached "2025-09-15T17:30:00Z" 63919992600 _
    "2025-09-15T17:30:05+00:00" 63919992605 (by decide) rfl (by decide) (by decide)

/-- C2: for every parseable target, if every Time Source response within
the timeout budget reports a current time strictly earlier than the
target, the waiter terminates with the `timedOut` outcome after exactly
864 000 queries and 864 000 sleeps; the elapsed wall-clock time at return
(`864000 * poll_interval_ms`, the loop guard being checked at the top of
each iteration before the query) is `≥ max_wait_ms` and
`< max_wait_ms + poll_interval_ms`.  The clock here is the waiter's own
wall clock (only its own sleeps advance it), not the remote simulation's
clock. -/
theorem C2_timeout_bounds (tgt : String) (t : Int) (src : Nat → ApiResult)
    (s : Nat → String) (c : Nat → Int)
    (ht : parse_target_time tgt = some t)
    (hsrc : ∀ k, k * poll_interval_ms < max_wait_ms → src k = ApiResult.success (some (s k)))
    (hc : ∀ k, k * poll_interval_ms < max_wait_ms → parse_current_time (s k) = some (c k))
    (hlt : ∀ k, k * poll_interval_ms < max_wait_ms → c k < t) :
    wait_until_time tgt src = ⟨.timedOut t, 864000, 864000⟩
      ∧ max_wait_ms ≤ 864000 * poll_interval_ms
      ∧ 864000 * poll_interval_ms < max_wait_ms + poll_interval_ms := by
  refine ⟨?_, by simp [max_wait_ms, poll_interval_ms], by simp [max_wait_ms, poll_interval_ms]⟩
  rw [wait_unfold tgt t src ht]
  have hfuel : wait_fuel = 1 + 864000 := rfl
  rw [hfuel, waitLoop_skip t src s c 864000 1 0 ?good]
  case good =>
    intro j _ hj2
    have hb : j * poll_interval_ms < max_wait_ms := (budget_iff j).mpr (by omega)
    exact ⟨hb, hsrc j hb, hc j hb, hlt j hb⟩
  have h0 : (0 : Nat) + 864000 = 864000 := rfl
  rw [h0]
  have h1 : (1 : Nat) = 0 + 1 := rfl
  rw [h1, waitLoop_guard t src 0 864000 (by simp [max_wait_ms, poll_interval_ms])]
  simp [bump]

/-- Witness for C2 at a concrete input. -/
theorem C2_witness :
    wait_until_time "2025-09-15T17:30:00Z"
      (fun _ => ApiResult.success (some "2025-09-15T17:00:00Z"))
      = ⟨.timedOut 63919992600, 864000, 864000⟩
    ∧ max_wait_ms ≤ 864000 * poll_interval_ms
    ∧ 864000 * poll_interval_ms < max_wait_ms + poll_interval_ms :=
  C2_timeout_bounds "2025-09-15T17:30:00Z" 63919992600 _
    (fun _ => "2025-09-15T17:00:00Z") (fun _ => 63919990800)
    (by decide) (fun _ _ => rfl)
    (fun _ _ => (by decide : parse_current_time "2025-09-15T17:00:00Z" = some 63919990800))
    (fun _ _ => (by decide : (63919990800 : Int) < 63919992600))

/-- C3: for every input string that the target normalization cannot parse,
`wait_until_time` returns the target parse-error outcome with zero Time
Source queries and zero sleeps. -/
theorem C3_parse_error_no_poll (tgt : String) (src : Nat → ApiResult)
    (h : parse_target_time tgt = none) :
    wait_until_time tgt src = ⟨.targetParseError tgt, 0, 0⟩ := by
  simp [wait_until_time, h]

/-- Witness for C3 at the spec's example input `"not-a-time"`. -/
theorem C3_witness :
    wait_until_time "not-a-time" (fun _ => ApiResult.failure "unreachable")
      = ⟨.targetParseError "not-a-time", 0, 0⟩ :=
  C3_parse_error_no_poll "not-a-time" _ (by decide)

/-- C4: for every parseable target, if the Time Source signals failure on
query `k` (after any number of earlier not-yet-reached responses),
`wait_until_time` returns the `sourceError` outcome immediately: exactly
`k + 1` queries (the failing one included, no retry) and `k` sleeps (none
after the failing query). -/
theorem C4_source_error_immediate (tgt : String) (t : Int) (src : Nat → ApiResult)
    (s : Nat → String) (c : Nat → Int) (k : Nat) (e : String)
    (ht : parse_target_time tgt = some t)
    (hgood : ∀ j, j < k →
       src j = ApiResult.success (some (s j)) ∧
       parse_current_time (s j) = some (c j) ∧ c j < t)
    (hk : k * poll_interval_ms < max_wait_ms)
    (hf : src k = ApiResult.failure e) :
    wait_until_time tgt src = ⟨.sourceError e, k + 1, k⟩ := by
  rw [wait_unfold tgt t src ht]
  have hk864 : k < 864000 := (budget_iff k).mp hk
  have hfuel : wait_fuel = (864001 - k) + k := by
    simp only [wait_fuel]
    omega
  rw [hfuel, waitLoop_skip t src s c k (864001 - k) 0 ?good]
  case good =>
    intro j _ hj2
    have hb : j * poll_interval_ms < max_wait_ms := (budget_iff j).mpr (by omega)
    exact ⟨hb, hgood j (by omega)⟩
  have h0 : (0 : Nat) + k = k := by omega
  rw [h0]
  have hsub : 864001 - k = (864000 - k) + 1 := by omega
  rw [hsub, waitLoop_failure t src (864000 - k) k e (not_le.mpr hk) hf]
  simp [bump, Nat.add_comm]

/-- Witness for C4: the second query fails. -/
theorem C4_witness :
    wait_until_time "2025-09-15T17:30:00Z"
      (fun k => if k = 0 then ApiResult.success (some "2025-09-15T17:00:00Z")
                else ApiResult.failure "boom")
      = ⟨.sourceError "boom", 2, 1⟩ :=
  C4_source_error_immediate "2025-09-15T17:30:00Z" 63919992600 _
    (fun _ => "2025-09-15T17:00:00Z") (fun _ => 63919990800) 1 "boom"
    (by decide)
    (fun j hj => by
      interval_cases j
      exact ⟨rfl, by decide, by decide⟩)
    (by simp [poll_interval_ms, max_wait_ms])
    rfl

/-- C5: the target-reached comparison is non-strict — a first response
whose normalized instant exactly equals the normalized target instant
returns `reached` on the first query; and in the spec's scenario
(target `17:30:00Z`, responses `17:29:59+00:00` then `17:30:00+00:00`)
the first iteration does not satisfy the wait and the second returns
`reached` carrying the second observed instant (two queries, one sleep). -/
theorem C5_nonstrict_comparison :
    (∀ (tgt : String) (t : Int) (src : Nat → ApiResult) (s : String),
       parse_target_time tgt = some t → src 0 = ApiResult.success (some s) →
       parse_current_time s = some t →
       wait_until_time tgt src = ⟨.reached t, 1, 0⟩)
    ∧ wait_until_time "2025-09-15T17:30:00Z"
        (fun k => if k = 0 then ApiResult.success (some "2025-09-15T17:29:59+00:00")
                  else ApiResult.success (some "2025-09-15T17:30:00+00:00"))
        = ⟨.reached 63919992600, 2, 1⟩ := by
  constructor
  · intro tgt t src s ht hs hc
    rw [wait_unfold tgt t src ht]
    have h0 : ¬ max_wait_ms ≤ 0 * poll_interval_ms := by
      simp [max_wait_ms, poll_interval_ms]
    rw [show wait_fuel = 864000 + 1 from rfl,
        waitLoop_reached t src 864000 0 s t h0 hs hc (le_refl t)]
  · rw [wait_unfold _ 63919992600 _ (by decide),
        show wait_fuel = 864000 + 1 from rfl,
        waitLoop_continue 63919992600 _ 864000 0 "2025-09-15T17:29:59+00:00" 63919992599
          (by simp [max_wait_ms, poll_interval_ms]) rfl (by decide) (by decide),
        show (864000 : Nat) = 863999 + 1 from rfl,
        waitLoop_reached 63919992600 _ 863999 1 "2025-09-15T17:30:00+00:00" 63919992600
          (by simp [max_wait_ms, poll_interval_ms]) rfl (by decide) (by decide)]
    rfl

/-- Witness for C5's universally quantified part at a concrete input. -/
theorem C5_witness :
    wait_until_time "2025-09-15T17:30:00Z"
      (fun _ => ApiResult.success (some "2025-09-15T17:30:00+00:00"))
      = ⟨.reached 63919992600, 1, 0⟩ :=
  C5_nonstrict_comparison.1 "2025-09-15T17:30:00Z" 63919992600 _
    "2025-09-15T17:30:00+00:00" (by decide) rfl (by decide)

/-- C6: the comparison is offset-aware instant comparison, not string
comparison: target `2025-09-15T17:30:00+02:00` (15:30 UTC) with the source
immediately returning `2025-09-15T15:30:00Z` is reached on the first
query, and the two strings normalize to the same instant. -/
theorem C6_offset_aware :
    wait_until_time "2025-09-15T17:30:00+02:00"
      (fun _ => ApiResult.success (some "2025-09-15T15:30:00Z"))
      = ⟨.reached 63919985400, 1, 0⟩
    ∧ parse_target_time "2025-09-15T17:30:00+02:00"
        = parse_current_time "2025-09-15T15:30:00Z" := by
  exact ⟨by decide, by decide⟩

/-- C8: a success response whose `current_time_iso` field is absent
produces the missing-field outcome after one query — an outcome distinct
from both parse-error outcomes — and a present, non-empty field whose text
fails to parse produces the current-time parse-error outcome carrying the
offending text, again terminally after one query. -/
theorem C8_missing_vs_malformed :
    (∀ (tgt : String) (t : Int) (src : Nat → ApiResult),
       parse_target_time tgt = some t → src 0 = ApiResult.success none →
       wait_until_time tgt src = ⟨.missingCurrentTime, 1, 0⟩)
    ∧ (∀ s, WaitOutcome.missingCurrentTime ≠ WaitOutcome.currentParseError s
         ∧ WaitOutcome.missingCurrentTime ≠ WaitOutcome.targetParseError s)
    ∧ (∀ (tgt : String) (t : Int) (src : Nat → ApiResult) (s : String),
       parse_target_time tgt = some t → src 0 = ApiResult.success (some s) → s ≠ "" →
       parse_current_time s = none →
       wait_until_time tgt src = ⟨.currentParseError s, 1, 0⟩) := by
  have h0 : ¬ max_wait_ms ≤ 0 * poll_interval_ms := by
    simp [max_wait_ms, poll_interval_ms]
  refine ⟨?_, ?_, ?_⟩
  · intro tgt t src ht hs
    rw [wait_unfold tgt t src ht, show wait_fuel = 864000 + 1 from rfl,
        waitLoop_missing_none t src 864000 0 h0 hs]
  · intro s
    exact ⟨fun h => WaitOutcome.noConfusion h, fun h => WaitOutcome.noConfusion h⟩
  · intro tgt t src s ht hs hemp hp
    rw [wait_unfold tgt t src ht, show wait_fuel = 864000 + 1 from rfl,
        waitLoop_parse_fail t src 864000 0 s h0 hs hemp hp]

/-- Witness for C8 at concrete inputs: an absent field and a malformed
field. -/
theorem C8_witness :
    wait_until_time "2025-09-15T17:30:00Z" (fun _ => ApiResult.success none)
      = ⟨.missingCurrentTime, 1, 0⟩
    ∧ wait_until_time "2025-09-15T17:30:00Z"
        (fun _ => ApiResult.success (some "garbage"))
        = ⟨.currentParseError "garbage", 1, 0⟩ :=
  ⟨C8_missing_vs_malformed.1 "2025-09-15T17:30:00Z" 63919992600 _ (by decide) rfl,
   C8_missing_vs_malformed.2.2 "2025-09-15T17:30:00Z" 63919992600 _ "garbage"
     (by decide) rfl (by decide) (by decide)⟩

/-- C9: the two timestamp-parsing call sites (target, lines 169-179;
current time, lines 196-208) implement the same normalization: on every
input string they either both fail or both yield the same absolute UTC
instant; and for a non-`Z`, non-offset-bearing string that parses to a
naive datetime, both interpret it as UTC (the instant of its bare
fields). -/
theorem C9_call_sites_consistent :
    (∀ s : String, parse_target_time s = parse_current_time s)
    ∧ (∀ (cs : List Char) (f : PyDateTime), cs.getLast? ≠ some 'Z' →
        fromisoformatL cs = some f → f.tzinfo = none →
        normTargetL cs = some (civilSecs f) ∧ normCurrentL cs = some (civilSecs f)) := by
  constructor
  · intro s; rfl
  · intro cs f hz hp htz
    constructor <;> simp [normTargetL, normCurrentL, hz, hp, pyNormalize, htz]

/-- Witness for C9's second part at a concrete offset-free string. -/
theorem C9_witness :
    normTargetL "2025-09-15T17:30:00".toList
      = some (civilSecs ⟨2025, 9, 15, 17, 30, 0, none⟩)
    ∧ normCurrentL "2025-09-15T17:30:00".toList
      = some (civilSecs ⟨2025, 9, 15, 17, 30, 0, none⟩) :=
  C9_call_sites_consistent.2 "2025-09-15T17:30:00".toList ⟨2025, 9, 15, 17, 30, 0, none⟩
    (by decide) (by decide) rfl

/-- C10: a success response carrying `current_time_iso` as the empty
string takes the falsy presence check (`if not current_time_iso`), so the
waiter returns the missing-field outcome — the same trace as for an absent
field, and not a parse-error outcome. -/
theorem C10_empty_field_is_missing (tgt : String) (t : Int) (src src' : Nat → ApiResult)
    (ht : parse_target_time tgt = some t)
    (h : src 0 = ApiResult.success (some ""))
    (h' : src' 0 = ApiResult.success none) :
    wait_until_time tgt src = ⟨.missingCurrentTime, 1, 0⟩
    ∧ wait_until_time tgt src = wait_until_time tgt src'
    ∧ ∀ s, WaitOutcome.missingCurrentTime ≠ WaitOutcome.currentParseError s := by
  have h0 : ¬ max_wait_ms ≤ 0 * poll_interval_ms := by
    simp [max_wait_ms, poll_interval_ms]
  have e1 : wait_until_time tgt src = ⟨.missingCurrentTime, 1, 0⟩ := by
    rw [wait_unfold tgt t src ht, show wait_fuel = 864000 + 1 from rfl,
        waitLoop_missing_empty t src 864000 0 h0 h]
  have e2 : wait_until_time tgt src' = ⟨.missingCurrentTime, 1, 0⟩ := by
    rw [wait_unfold tgt t src' ht, show wait_fuel = 864000 + 1 from rfl,
        waitLoop_missing_none t src' 864000 0 h0 h']
  exact ⟨e1, by rw [e1, e2], fun s hne => WaitOutcome.noConfusion hne⟩

/-- Witness for C10 at a concrete input. -/
theorem C10_witness :
    wait_until_time "2025-09-15T17:30:00Z" (fun _ => ApiResult.success (some ""))
      = ⟨.missingCurrentTime, 1, 0⟩
    ∧ wait_until_time "2025-09-15T17:30:00Z" (fun _ => ApiResult.success (some ""))
      = wait_until_time "2025-09-15T17:30:00Z" (fun _ => ApiResult.success none) :=
  ⟨(C10_empty_field_is_missing "2025-09-15T17:30:00Z" 63919992600
      (fun _ => ApiResult.success (some "")) (fun _ => ApiResult.success none)
      (by decide) rfl rfl).1,
   (C10_empty_field_is_missing "2025-09-15T17:30:00Z" 63919992600
      (fun _ => ApiResult.success (some "")) (fun _ => ApiResult.success none)
      (by decide) rfl rfl).2.1⟩

theorem isDigit_toDigitChar (d : Nat) (h : d < 10) : (toDigitChar d).isDigit = true := by
  interval_cases d <;> decide

theorem digitVal_toDigitChar (d : Nat) (h : d < 10) : digitVal (toDigitChar d) = d := by
  interval_cases d <;> decide

theorem expect_cons (a : Char) (rest : List Char) : expect a (a :: rest) = some rest := by
  simp [expect]

theorem parseNat2_pad2 (n : Nat) (h : n < 100) (rest : List Char) :
    parseNat2 (pad2 n ++ rest) = some (n, rest) := by
  have h1 : n / 10 < 10 := by omega
  have h2 : n % 10 < 10 := by omega
  simp [pad2, parseNat2, isDigit_toDigitChar _ h1, isDigit_toDigitChar _ h2,
        digitVal_toDigitChar _ h1, digitVal_toDigitChar _ h2]
  omega

theorem parseNat4_pad4 (n : Nat) (h : n < 10000) (rest : List Char) :
    parseNat4 (pad4 n ++ rest) = some (n, rest) := by
  have h1 : n / 1000 < 10 := by omega
  have h2 : n / 100 % 10 < 10 := by omega
  have h3 : n / 10 % 10 < 10 := by omega
  have h4 : n % 10 < 10 := by omega
  simp [pad4, parseNat4, isDigit_toDigitChar _ h1, isDigit_toDigitChar _ h2,
        isDigit_toDigitChar _ h3, isDigit_toDigitChar _ h4,
        digitVal_toDigitChar _ h1, digitVal_toDigitChar _ h2,
        digitVal_toDigitChar _ h3, digitVal_toDigitChar _ h4]
  omega

theorem parseTimePart_format (hh mi ss : Nat)
    (h1 : hh < 100) (h2 : mi < 100) (h3 : ss < 100) (rest : List Char) :
    parseTimePart (pad2 hh ++ ':' :: (pad2 mi ++ ':' :: (pad2 ss ++ rest)))
      = some (hh, mi, ss, rest) := by
  simp [parseTimePart, parseNat2_pad2 hh h1, expect_cons, parseNat2_pad2 mi h2,
        parseNat2_pad2 ss h3]

theorem parseTzPart_utc : parseTzPart ['+', '0', '0', ':', '0', '0'] = some (some 0, []) := by
  decide

theorem daysInMonth_le (y m : Nat) : daysInMonth y m ≤ 31 := by
  unfold daysInMonth
  split <;> [split <;> omega; (split <;> omega)]

/-- Formatting a well-formed UTC-aware datetime with `isoformat()` and
re-parsing it with `fromisoformat` recovers exactly the same datetime. -/
theorem fromisoformatL_isoformatUTC (f : PyDateTime) (hv : validUTCFields f) :
    fromisoformatL (isoformatUTC f) = some f := by
  obtain ⟨y, m, d, hh, mi, ss, tz⟩ := f
  simp only [validUTCFields] at hv
  obtain ⟨h1, h2, h3, h4, h5, h6, h7, h8, h9, h10⟩ := hv
  subst h10
  have hd : d < 100 := by
    have := daysInMonth_le y m
    omega
  simp [isoformatUTC, fromisoformatL,
    parseNat4_pad4 y (by omega), expect_cons,
    parseNat2_pad2 m (by omega), parseNat2_pad2 d hd,
    parseTimePart_format hh mi ss (by omega) (by omega) (by omega),
    parseTzPart_utc, h1, h2, h3, h4, h5, h6, h7, h8, h9]

/-- C7: a trailing literal `Z` is normalized exactly like an explicit
`+00:00` offset; a parsed timestamp with no offset is normalized to the
same UTC instant as the same fields with a `+00:00` offset; and formatting
a normalized (UTC-aware) datetime and re-parsing it yields the same
datetime, hence the same instant. -/
theorem C7_z_utc_roundtrip :
    (∀ s : String, parse_target_time (s ++ "Z") = parse_target_time (s ++ "+00:00"))
    ∧ (∀ f : PyDateTime, f.tzinfo = none →
        pyNormalize f
          = pyNormalize ⟨f.year, f.month, f.day, f.hour, f.minute, f.second, some 0⟩)
    ∧ (∀ f : PyDateTime, validUTCFields f →
        fromisoformatL (isoformatUTC f) = some f
          ∧ (fromisoformatL (isoformatUTC f)).map pyNormalize = some (pyNormalize f)) := by
  refine ⟨?_, ?_, ?_⟩
  · intro s
    show normTargetL (s ++ "Z").toList = normTargetL (s ++ "+00:00").toList
    have hZ : (s ++ "Z").toList = s.toList ++ ['Z'] := rfl
    have hP : (s ++ "+00:00").toList = s.toList ++ "+00:00".toList := rfl
    have hR : (s.toList ++ "+00:00".toList).getLast? = some '0' := by
      rw [List.getLast?_append_of_ne_nil _ (by decide)]
      decide
    rw [hZ, hP]
    simp [normTargetL, List.getLast?_concat, List.dropLast_concat, hR]
  · intro f htz
    obtain ⟨y, m, d, hh, mi, ss, tz⟩ := f
    simp only at htz
    subst htz
    simp [pyNormalize, civilSecs]
  · intro f hv
    refine ⟨fromisoformatL_isoformatUTC f hv, ?_⟩
    rw [fromisoformatL_isoformatUTC f hv]
    rfl

/-- Witness for C7 at a concrete input. -/
theorem C7_witness :
    parse_target_time ("2025-09-15T17:30:00" ++ "Z")
      = parse_target_time ("2025-09-15T17:30:00" ++ "+00:00")
    ∧ pyNormalize ⟨2025, 9, 15, 17, 30, 0, none⟩
      = pyNormalize ⟨2025, 9, 15, 17, 30, 0, some 0⟩
    ∧ fromisoformatL (isoformatUTC ⟨2025, 9, 15, 17, 30, 0, some 0⟩)
      = some ⟨2025, 9, 15, 17, 30, 0, some 0⟩ :=
  ⟨C7_z_utc_roundtrip.1 "2025-09-15T17:30:00",
   C7_z_utc_roundtrip.2.1 ⟨2025, 9, 15, 17, 30, 0, none⟩ rfl,
   (C7_z_utc_roundtrip.2.2 ⟨2025, 9, 15, 17, 30, 0, some 0⟩
     (by unfold validUTCFields; exact (by decide))).1⟩

